import Mathlib

/-
Shallow embedding of src/majbdd/validation.py.

The Python module validates a delimited partner file against a YAML
contract: partner/file-key resolution, extension check, separator/columns
presence, strict header comparison, then per-row type validation over a
bounded sample via a dynamically built pydantic model.

Modelling choices:
- the YAML configuration is a `List (String × List (String × FileContract))`
  association list (partner -> file key -> contract);
- the file is the list of records produced by `csv.reader`: a
  `List (List String)`; the first record is the header;
- `file_path.suffix` and `file_path.name` are passed as explicit strings;
- pydantic's `EmailStr` grammar is an abstract oracle `emailOk : String → Bool`
  threaded through the definitions;
- `_build_row_model` writes its `sha256` / `email_or_sha256` field validators
  into `validators` and installs them with `setattr(RowModel, name, fn)` AFTER
  `create_model` has built the class.  In pydantic v2 a model's core schema and
  `__pydantic_validator__` are fixed when the class is created; decorator
  proxies attached afterwards are never collected, so those validators never
  run.  We therefore embed two per-cell predicates: `cellOkDeclared`, the
  validator bodies as written in the source (lines 146-173), and
  `cellOkEffective`, what `RowModel.model_validate` actually enforces
  (only the `EmailStr | None` annotation of the `email` rule).
  `validate_file` uses the effective semantics, since that is the program's
  behaviour.
-/

namespace MajBdd

/-- Python `str.lower()`, character by character over the underlying character
list (the claims only exercise its ASCII behaviour). -/
def lower (s : String) : String :=
  ⟨s.data.map Char.toLower⟩

/-- Python `str.strip()`: drop leading and trailing whitespace. -/
def strip (s : String) : String :=
  ⟨(((s.data.dropWhile Char.isWhitespace).reverse).dropWhile Char.isWhitespace).reverse⟩

/-- One resolved contract entry `cfg = config[partner][file_key]`.
`extension` and `separator` are `Option` because the Python code reads them
with `cfg.get(...)`; a YAML `columns: null` behaves like `[]` because of
`cfg.get("columns") or []`, so `columns` is a plain list; `types` values are
`Option` because a YAML `null` rule reaches `type_rules.get(col)` as `None`. -/
structure FileContract where
  extension : Option String
  separator : Option String
  encoding : String
  columns : List String
  types : List (String × Option String)
deriving DecidableEq

/-- The success dictionary returned by `validate_file` (lines 95-101). -/
structure VResult where
  status : String
  partner : String
  file : String
  file_key : String
  sample_validated_rows : Nat
deriving DecidableEq

/-- The distinct `ValidationError` messages `validate_file` can raise, as an
error taxonomy.  `rowTypeError` keeps the 1-based row index and the columns
whose validation failed (pydantic reports every failing field of the row;
the wrapper message at line 93 embeds the row index and that report). -/
inductive VError where
  | unknownPartner (partner : String)
  | unknownFileKey (file_key partner : String)
  | formatError (suffix expected : String)
  | missingSeparator
  | missingColumns
  | emptyFile
  | headerMismatch (expected actual : List String)
  | rowTypeError (rowIndex : Nat) (failedCols : List String)
deriving DecidableEq

/-- A character matched by the class `[a-fA-F0-9]`. -/
def isHexChar (c : Char) : Bool :=
  ('a' ≤ c && c ≤ 'f') || ('A' ≤ c && c ≤ 'F') || ('0' ≤ c && c ≤ '9')

/-- `_SHA256_RE.fullmatch(s)` for `_SHA256_RE = re.compile(r"^[a-fA-F0-9]{64}$")`:
exactly 64 case-insensitive hexadecimal characters. -/
def sha256_matches (s : String) : Bool :=
  s.data.length == 64 && s.data.all isHexChar

/-- Rule dispatch of `_build_row_model`, line 136:
`rule = (type_rules.get(col) or "string").lower()`.  An absent key, a `None`
value and the empty string are all falsy, hence default to `"string"`. -/
def rule_for (types : List (String × Option String)) (col : String) : String :=
  lower (match types.lookup col with
   | some (some r) => if r = "" then "string" else r
   | _ => "string")

/-- The per-cell acceptance predicate DECLARED by the validator bodies of
`_build_row_model` (lines 138-177): `email` defers to the `EmailStr` grammar,
`sha256` requires a full match of `_SHA256_RE`, `email_or_sha256` accepts any
value containing `@` without further checks and otherwise requires the
`_SHA256_RE` match; every other rule name falls back to `string` and accepts
anything.  Every validator returns `None` unchanged, so `none` is accepted by
every rule. -/
def cellOkDeclared (emailOk : String → Bool) (rule : String) (v : Option String) : Bool :=
  match v with
  | none => true
  | some s =>
    if rule = "email" then emailOk s
    else if rule = "sha256" then sha256_matches s
    else if rule = "email_or_sha256" then s.data.contains '@' || sha256_matches s
    else true

/-- The per-cell acceptance predicate the generated `RowModel` actually
enforces.  The `setattr` injection at lines 182-183 happens after
`create_model` has compiled the pydantic core schema, so the `sha256` and
`email_or_sha256` validators are never registered and those fields keep their
plain `str | None` / `str | EmailStr | None` annotations, which accept every
string.  Only the `email` rule, whose check lives in the field annotation
`EmailStr | None` itself, actually validates. -/
def cellOkEffective (emailOk : String → Bool) (rule : String) (v : Option String) : Bool :=
  match v with
  | none => true
  | some s => if rule = "email" then emailOk s else true

/-- Cell normalisation inside `_row_to_dict` (lines 113-118): strings are
stripped and an empty-after-strip cell becomes `None`. -/
def normalize_cell (s : String) : Option String :=
  let t := strip s
  if t = "" then none else some t

/-- `_row_to_dict(columns, row)` (lines 104-119): truncate the row to
`len(columns)` cells, pad with `None` up to `len(columns)`, strip every string
cell, turn empty-after-strip cells into `None`, and pair the results with the
column names in order. -/
def row_to_dict (columns : List String) (row : List String) :
    List (String × Option String) :=
  let values := (row.take columns.length).map normalize_cell ++
    List.replicate (columns.length - row.length) none
  columns.zip values

/-- The columns of one normalised row that fail their (effective) rule, in
column order: the fields `RowModel.model_validate` reports as invalid. -/
def row_failures (emailOk : String → Bool) (columns : List String)
    (types : List (String × Option String)) (row : List String) : List String :=
  (row_to_dict columns row).filterMap fun cv =>
    if cellOkEffective emailOk (rule_for types cv.1) cv.2 then none else some cv.1

/-- The sampling loop of `validate_file` (lines 83-93).  `lastI` is the value
the Python variable `i` had before the current iteration (`0` when the loop
has not run).  The loop reads a row, increments `i`, breaks as soon as
`i > sample_size`, validates the row otherwise, and aborts with a
`rowTypeError` on the first failing row.  On normal exit it returns the final
value of `i`. -/
def scan_rows (emailOk : String → Bool) (columns : List String)
    (types : List (String × Option String)) (sample_size : Nat) :
    List (List String) → Nat → Except VError Nat
  | [], lastI => .ok lastI
  | row :: rest, lastI =>
    if lastI + 1 > sample_size then .ok (lastI + 1)
    else
      match row_failures emailOk columns types row with
      | [] => scan_rows emailOk columns types sample_size rest (lastI + 1)
      | cols => .error (.rowTypeError (lastI + 1) cols)

/-- The success summary of `validate_file` (lines 95-101):
`sample_validated_rows = min(sample_size, i if 'i' in locals() else 0)`. -/
def finish_scan (partner file_name file_key : String) (sample_size : Nat) :
    Except VError Nat → Except VError VResult
  | .error e => .error e
  | .ok i => .ok ⟨"OK", partner, file_name, file_key, min sample_size i⟩

/-- `validate_file` (lines 20-101): partner and file-key resolution, extension
check (case-insensitive, line 52-54), separator and columns presence checks
(lines 62-65), empty-file check (lines 73-76), strict header comparison
(lines 78-80), then the sampled row scan.  `file_name` stands for
`file_path.name` and `suffix` for `file_path.suffix`. -/
def validate_file (emailOk : String → Bool)
    (config : List (String × List (String × FileContract)))
    (partner file_key file_name suffix : String)
    (rows : List (List String)) (sample_size : Nat) : Except VError VResult :=
  match config.lookup partner with
  | none => .error (.unknownPartner partner)
  | some partner_cfg =>
    match partner_cfg.lookup file_key with
    | none => .error (.unknownFileKey file_key partner)
    | some cfg =>
      let expected_ext := lower (cfg.extension.getD "")
      if lower suffix ≠ expected_ext then
        .error (.formatError suffix expected_ext)
      else if cfg.separator.getD "" = "" then .error .missingSeparator
      else if cfg.columns = [] then .error .missingColumns
      else
        match rows with
        | [] => .error .emptyFile
        | header :: dataRows =>
          if header ≠ cfg.columns then .error (.headerMismatch cfg.columns header)
          else
            finish_scan partner file_name file_key sample_size
              (scan_rows emailOk cfg.columns cfg.types sample_size dataRows 0)

end MajBdd

deriving instance DecidableEq for Except

namespace MajBdd

/-- Every error produced inside the sampling loop is a row-type error. -/
theorem scan_rows_error_shape (e : String → Bool) (cols : List String)
    (ty : List (String × Option String)) (ss : Nat) :
    ∀ (rows : List (List String)) (lastI : Nat) (err : VError),
      scan_rows e cols ty ss rows lastI = .error err →
      ∃ i fc, err = .rowTypeError i fc := by
  intro rows
  induction rows with
  | nil => intro lastI err h; simp [scan_rows] at h
  | cons row rest ih =>
    intro lastI err h
    simp only [scan_rows] at h
    split at h
    · exact absurd h (by simp)
    · split at h
      · exact ih _ _ h
      · injection h with h2
        exact ⟨lastI + 1, _, h2.symm⟩

/-- If the loop exits normally after seeing at least `sample_size` rows, the
final loop counter is at least `sample_size`. -/
theorem scan_rows_ok_ge (e : String → Bool) (cols : List String)
    (ty : List (String × Option String)) (ss : Nat) :
    ∀ (rows : List (List String)) (lastI j : Nat),
      scan_rows e cols ty ss rows lastI = .ok j → ss ≤ lastI + rows.length → ss ≤ j := by
  intro rows
  induction rows with
  | nil =>
    intro lastI j h hl
    simp only [scan_rows, Except.ok.injEq] at h
    simp only [List.length_nil] at hl
    omega
  | cons row rest ih =>
    intro lastI j h hl
    simp only [scan_rows, List.length_cons] at h hl
    split at h
    · rename_i hb
      simp only [Except.ok.injEq] at h
      omega
    · split at h
      · exact ih (lastI + 1) j h (by omega)
      · exact absurd h (by simp)

/-- Mapping the final `min sample_size` over the loop result, the scan sees
only the first `sample_size - lastI` remaining rows. -/
theorem scan_rows_map_min_take (e : String → Bool) (cols : List String)
    (ty : List (String × Option String)) (ss : Nat) :
    ∀ (rows : List (List String)) (lastI : Nat),
      (scan_rows e cols ty ss rows lastI).map (min ss) =
        (scan_rows e cols ty ss (rows.take (ss - lastI)) lastI).map (min ss) := by
  intro rows
  induction rows with
  | nil => intro lastI; simp
  | cons row rest ih =>
    intro lastI
    by_cases hb : lastI + 1 > ss
    · have h0 : ss - lastI = 0 := by omega
      rw [h0]
      simp only [List.take_zero, scan_rows, if_pos hb, Except.map]
      congr 1
      omega
    · have h1 : ss - lastI = (ss - (lastI + 1)) + 1 := by omega
      rw [h1, List.take_succ_cons]
      simp only [scan_rows, if_neg hb]
      cases hf : row_failures e cols ty row with
      | nil => simp only [hf]; exact ih (lastI + 1)
      | cons c cs => simp [hf]

/-- The success summary depends on the loop result only through
`min sample_size`. -/
theorem finish_scan_congr (p fn k : String) (ss : Nat) (a b : Except VError Nat)
    (h : a.map (min ss) = b.map (min ss)) :
    finish_scan p fn k ss a = finish_scan p fn k ss b := by
  cases a <;> cases b <;> simp [Except.map] at h <;> simp [finish_scan, h]

end MajBdd

namespace MajBdd

/-- An email oracle accepting exactly one syntactically valid address, used to
instantiate the abstract `EmailStr` grammar in concrete runs. -/
def eW : String → Bool := fun s => s == "john@example.com"

/-- An email oracle that accepts everything. -/
def passAll : String → Bool := fun _ => true

/-- A 63-character hexadecimal value (one character short of a SHA-256). -/
def a63 : String := ⟨List.replicate 63 'a'⟩

/-- A 64-character hexadecimal value. -/
def a64 : String := ⟨List.replicate 64 'a'⟩

/-- Contract with `columns=[a,b]`, `types={a: sha256, b: email}`. -/
def cfgAB : FileContract :=
  ⟨some ".csv", some ";", "utf-8", ["a", "b"], [("a", some "sha256"), ("b", some "email")]⟩

/-- Configuration store holding `cfgAB` under partner `p`, file key `default`. -/
def configAB : List (String × List (String × FileContract)) := [("p", [("default", cfgAB)])]

/-- Contract with a single `email_or_sha256` column. -/
def cfgC : FileContract :=
  ⟨some ".csv", some ";", "utf-8", ["c"], [("c", some "email_or_sha256")]⟩

/-- Configuration store holding `cfgC`. -/
def configC : List (String × List (String × FileContract)) := [("p", [("default", cfgC)])]

/-- Contract whose `separator` is missing. -/
def cfgNoSep : FileContract := ⟨some ".csv", none, "utf-8", ["a"], []⟩

/-- Configuration store holding `cfgNoSep`. -/
def configNoSep : List (String × List (String × FileContract)) :=
  [("p", [("default", cfgNoSep)])]

/-- Ten data rows for `cfgAB`: the first five are well formed, the last five
have a `b` cell that is not a valid email address. -/
def rows10 : List (List String) :=
  List.replicate 5 [a64, "john@example.com"] ++ List.replicate 5 [a64, "notanemail"]

/-- C1: for the contract `columns=[a,b]`, `types={a: sha256, b: email}`, a row
whose `a` cell has 64 hex characters and whose `b` cell is a valid email
passes (first conjunct, as the claim states).  The declared `sha256` validator
rejects a 63-character value (second conjunct), but because `_build_row_model`
installs it with `setattr` after `create_model` has already compiled the
pydantic schema, the validator never runs and `validate_file` ACCEPTS the row
with the 63-character `a` cell instead of raising the row-type error the claim
requires (third conjunct): the code contradicts its declared rule. -/
theorem sha256_row_code_behavior :
    validate_file eW configAB "p" "default" "f.csv" ".csv"
      [["a", "b"], [a64, "john@example.com"]] 1000 =
      .ok ⟨"OK", "p", "f.csv", "default", 1⟩ ∧
    cellOkDeclared eW "sha256" (some a63) = false ∧
    validate_file eW configAB "p" "default" "f.csv" ".csv"
      [["a", "b"], [a63, "john@example.com"]] 1000 =
      .ok ⟨"OK", "p", "f.csv", "default", 1⟩ := by
  refine ⟨by decide, by decide, by decide⟩

/-- C2: the declared `email_or_sha256` validator accepts any value containing
`@` without further grammar checks and any exact 64-hex value, and rejects a
value with neither property (first three conjuncts, as the claim states for
the rule as written).  But the validator is installed with `setattr` after
`create_model` has compiled the pydantic schema, so it never runs: the field
keeps its permissive `str | EmailStr | None` annotation and the effective
check accepts the no-property value too, and `validate_file` returns success
on such a row instead of the row-type error the claim requires (last two
conjuncts). -/
theorem email_or_sha256_code_behavior :
    cellOkDeclared eW "email_or_sha256" (some "u@anything(!)") = true ∧
    cellOkDeclared eW "email_or_sha256" (some a64) = true ∧
    cellOkDeclared eW "email_or_sha256" (some "zzz") = false ∧
    cellOkEffective eW "email_or_sha256" (some "zzz") = true ∧
    validate_file eW configC "p" "default" "f.csv" ".csv" [["c"], ["zzz"]] 10 =
      .ok ⟨"OK", "p", "f.csv", "default", 1⟩ := by
  refine ⟨by decide, by decide, by decide, by decide, by decide⟩

end MajBdd

namespace MajBdd

/-- C3 counterexample: a resolved contract with a missing `separator` together
with a mismatched file extension is reported as the extension's format error,
not as the invalid-contract error the claim predicts: the extension check at
lines 52-54 runs before the separator/columns checks at lines 62-65. -/
theorem format_vs_contract_order_cex :
    validate_file passAll configNoSep "p" "default" "f.txt" ".txt" [] 10 =
      .error (.formatError ".txt" ".csv") ∧
    ¬ validate_file passAll configNoSep "p" "default" "f.txt" ".txt" [] 10 =
      .error .missingSeparator := by
  refine ⟨by decide, by decide⟩

/-- C3 (amended): once the partner and file key resolve, the extension check
runs BEFORE the separator/columns presence checks, so whenever the file's
extension does not match the contract the single reported error is the
`formatError`, whatever the state of `separator` and `columns`; the overall
detection order is partner, file key, extension, separator, columns,
empty-file/header, row scan. -/
theorem format_error_precedes_contract_checks (e : String → Bool)
    (config : List (String × List (String × FileContract)))
    (partner file_key file_name suffix : String)
    (pcfg : List (String × FileContract)) (cfg : FileContract)
    (rows : List (List String)) (ss : Nat)
    (h1 : config.lookup partner = some pcfg)
    (h2 : pcfg.lookup file_key = some cfg)
    (hext : lower suffix ≠ lower (cfg.extension.getD "")) :
    validate_file e config partner file_key file_name suffix rows ss =
      .error (.formatError suffix (lower (cfg.extension.getD ""))) := by
  simp [validate_file, h1, h2, hext]

/-- Witness for the amended C3 theorem at the counterexample's input. -/
theorem format_error_precedes_contract_checks_witness :
    validate_file passAll configNoSep "p" "default" "g.txt" ".txt" [["a"]] 10 =
      .error (.formatError ".txt" (lower ".csv")) :=
  format_error_precedes_contract_checks passAll configNoSep "p" "default" "g.txt" ".txt"
    [("default", cfgNoSep)] cfgNoSep [["a"]] 10 (by decide) (by decide) (by decide)

/-- C5: the header-to-contract comparison at lines 78-80 is plain list
equality, so any first row that differs from the contract's `columns` in
names, order or count makes the call fail with the header-mismatch structure
error carrying both sequences. -/
theorem header_mismatch_strict (e : String → Bool)
    (config : List (String × List (String × FileContract)))
    (partner file_key file_name suffix : String)
    (pcfg : List (String × FileContract)) (cfg : FileContract)
    (header : List String) (dataRows : List (List String)) (ss : Nat)
    (h1 : config.lookup partner = some pcfg)
    (h2 : pcfg.lookup file_key = some cfg)
    (hext : lower suffix = lower (cfg.extension.getD ""))
    (hsep : cfg.separator.getD "" ≠ "")
    (hcols : cfg.columns ≠ [])
    (hhdr : header ≠ cfg.columns) :
    validate_file e config partner file_key file_name suffix (header :: dataRows) ss =
      .error (.headerMismatch cfg.columns header) := by
  simp [validate_file, h1, h2, hext, hsep, hcols, hhdr]

/-- Witness for C5: expected `[a,b]`, actual `[b,a]` fails although the column
sets are equal. -/
theorem header_mismatch_strict_witness :
    validate_file passAll configAB "p" "default" "f.csv" ".csv" [["b", "a"]] 5 =
      .error (.headerMismatch ["a", "b"] ["b", "a"]) :=
  header_mismatch_strict passAll configAB "p" "default" "f.csv" ".csv"
    [("default", cfgAB)] cfgAB ["b", "a"] [] 5
    (by decide) (by decide) (by decide) (by decide) (by decide) (by decide)

/-- C7: a file holding only a valid header line and no data rows succeeds:
the loop at lines 83-93 never runs, `i` stays unbound, and the summary at
lines 95-101 reports status `OK` with `sample_validated_rows = 0`. -/
theorem header_only_file_ok (e : String → Bool)
    (config : List (String × List (String × FileContract)))
    (partner file_key file_name suffix : String)
    (pcfg : List (String × FileContract)) (cfg : FileContract) (ss : Nat)
    (h1 : config.lookup partner = some pcfg)
    (h2 : pcfg.lookup file_key = some cfg)
    (hext : lower suffix = lower (cfg.extension.getD ""))
    (hsep : cfg.separator.getD "" ≠ "")
    (hcols : cfg.columns ≠ []) :
    validate_file e config partner file_key file_name suffix [cfg.columns] ss =
      .ok ⟨"OK", partner, file_name, file_key, 0⟩ := by
  simp [validate_file, h1, h2, hext, hsep, hcols, scan_rows, finish_scan]

/-- Witness for C7 on a concrete header-only file. -/
theorem header_only_file_ok_witness :
    validate_file passAll configAB "p" "default" "f.csv" ".csv" [["a", "b"]] 1000 =
      .ok ⟨"OK", "p", "f.csv", "default", 0⟩ :=
  header_only_file_ok passAll configAB "p" "default" "f.csv" ".csv"
    [("default", cfgAB)] cfgAB 1000 (by decide) (by decide) (by decide) (by decide) (by decide)

/-- C8: a file with no lines at all fails with the empty-file structure error,
raised when the first line is read (lines 73-76), before any data-row
validation: the result does not depend on the email oracle, the type rules or
the sample size. -/
theorem empty_file_error (e : String → Bool)
    (config : List (String × List (String × FileContract)))
    (partner file_key file_name suffix : String)
    (pcfg : List (String × FileContract)) (cfg : FileContract) (ss : Nat)
    (h1 : config.lookup partner = some pcfg)
    (h2 : pcfg.lookup file_key = some cfg)
    (hext : lower suffix = lower (cfg.extension.getD ""))
    (hsep : cfg.separator.getD "" ≠ "")
    (hcols : cfg.columns ≠ []) :
    validate_file e config partner file_key file_name suffix [] ss =
      .error .emptyFile := by
  simp [validate_file, h1, h2, hext, hsep, hcols]

/-- Witness for C8 on a concrete empty file. -/
theorem empty_file_error_witness :
    validate_file eW configAB "p" "default" "f.csv" ".csv" [] 1000 = .error .emptyFile :=
  empty_file_error eW configAB "p" "default" "f.csv" ".csv"
    [("default", cfgAB)] cfgAB 1000 (by decide) (by decide) (by decide) (by decide) (by decide)

end MajBdd

namespace MajBdd

/-- C9: with the partner and file key resolved, the extension comparison at
lines 52-54 lowercases both the path's suffix and the contract's extension.
First conjunct: when the two agree case-insensitively the call never reports a
format error, whatever the file's rows.  Second conjunct: when they disagree
the call fails with the format error for every possible file content, i.e.
before any content is read. -/
theorem extension_case_insensitive (e : String → Bool)
    (config : List (String × List (String × FileContract)))
    (partner file_key file_name suffix : String)
    (pcfg : List (String × FileContract)) (cfg : FileContract)
    (h1 : config.lookup partner = some pcfg)
    (h2 : pcfg.lookup file_key = some cfg) :
    (lower suffix = lower (cfg.extension.getD "") →
      ∀ (rows : List (List String)) (ss : Nat) (a b : String),
        validate_file e config partner file_key file_name suffix rows ss ≠
          .error (.formatError a b)) ∧
    (lower suffix ≠ lower (cfg.extension.getD "") →
      ∀ (rows : List (List String)) (ss : Nat),
        validate_file e config partner file_key file_name suffix rows ss =
          .error (.formatError suffix (lower (cfg.extension.getD "")))) := by
  constructor
  · intro hext rows ss a b hcontra
    simp only [validate_file, h1, h2, hext, ne_eq, not_true_eq_false, if_false,
      ite_false] at hcontra
    split at hcontra
    · simp at hcontra
    · split at hcontra
      · simp at hcontra
      · split at hcontra
        · simp at hcontra
        · split at hcontra
          · simp at hcontra
          · rename_i header dataRows hhdr
            cases hs : scan_rows e cfg.columns cfg.types ss dataRows 0 with
            | error err =>
              rw [hs] at hcontra
              obtain ⟨i, fc, hshape⟩ :=
                scan_rows_error_shape e cfg.columns cfg.types ss dataRows 0 err hs
              subst hshape
              simp [finish_scan] at hcontra
            | ok j =>
              rw [hs] at hcontra
              simp [finish_scan] at hcontra
  · intro hext rows ss
    simp [validate_file, h1, h2, hext]

/-- Witness for C9: the contract expects `.csv`; a `.CSV` path is not a format
error, while a `.md` path is one whatever the rows. -/
theorem extension_case_insensitive_witness :
    validate_file passAll configAB "p" "default" "f.CSV" ".CSV" [["a", "b"]] 5 ≠
      .error (.formatError ".CSV" ".csv") ∧
    validate_file passAll configAB "p" "default" "f.md" ".md" [["a", "b"]] 5 =
      .error (.formatError ".md" (lower ".csv")) :=
  ⟨(extension_case_insensitive passAll configAB "p" "default" "f.CSV" ".CSV"
      [("default", cfgAB)] cfgAB (by decide) (by decide)).1 (by decide)
      [["a", "b"]] 5 ".CSV" ".csv",
   (extension_case_insensitive passAll configAB "p" "default" "f.md" ".md"
      [("default", cfgAB)] cfgAB (by decide) (by decide)).2 (by decide) [["a", "b"]] 5⟩

/-- C4: with the partner and file key resolved, the call's outcome on a file
is the outcome on the file truncated to its first `sample_size` data rows
(first conjunct), so rows beyond the bound are never inspected and a malformed
row there cannot cause a failure; and when the file has more data rows than
`sample_size`, a successful result reports `sample_validated_rows =
sample_size` (second conjunct). -/
theorem sampling_bound (e : String → Bool)
    (config : List (String × List (String × FileContract)))
    (partner file_key file_name suffix : String)
    (pcfg : List (String × FileContract)) (cfg : FileContract)
    (header : List String) (dataRows : List (List String)) (ss : Nat)
    (h1 : config.lookup partner = some pcfg)
    (h2 : pcfg.lookup file_key = some cfg) :
    validate_file e config partner file_key file_name suffix (header :: dataRows) ss =
      validate_file e config partner file_key file_name suffix (header :: dataRows.take ss) ss ∧
    (ss < dataRows.length → ∀ r : VResult,
      validate_file e config partner file_key file_name suffix (header :: dataRows) ss = .ok r →
      r.sample_validated_rows = ss) := by
  constructor
  · simp only [validate_file, h1, h2]
    by_cases hext : lower suffix ≠ lower (cfg.extension.getD "")
    · simp only [if_pos hext]
    · simp only [if_neg hext]
      by_cases hsep : cfg.separator.getD "" = ""
      · simp only [if_pos hsep]
      · simp only [if_neg hsep]
        by_cases hcols : cfg.columns = []
        · simp only [if_pos hcols]
        · simp only [if_neg hcols]
          by_cases hhdr : header ≠ cfg.columns
          · simp only [if_pos hhdr]
          · simp only [if_neg hhdr]
            exact finish_scan_congr partner file_name file_key ss _ _
              (by simpa using scan_rows_map_min_take e cfg.columns cfg.types ss dataRows 0)
  · intro hlen r hok
    simp only [validate_file, h1, h2] at hok
    by_cases hext : lower suffix ≠ lower (cfg.extension.getD "")
    · simp [if_pos hext] at hok
    · simp only [if_neg hext] at hok
      by_cases hsep : cfg.separator.getD "" = ""
      · simp [if_pos hsep] at hok
      · simp only [if_neg hsep] at hok
        by_cases hcols : cfg.columns = []
        · simp [if_pos hcols] at hok
        · simp only [if_neg hcols] at hok
          by_cases hhdr : header ≠ cfg.columns
          · simp [if_pos hhdr] at hok
          · simp only [if_neg hhdr] at hok
            cases hs : scan_rows e cfg.columns cfg.types ss dataRows 0 with
            | error err => rw [hs] at hok; simp [finish_scan] at hok
            | ok j =>
              rw [hs] at hok
              simp only [finish_scan, Except.ok.injEq] at hok
              have hj : ss ≤ j :=
                scan_rows_ok_ge e cfg.columns cfg.types ss dataRows 0 j hs (by omega)
              rw [← hok]
              simp [Nat.min_eq_left hj]

/-- Witness for C4: `sample_size=5` on a file with 10 data rows, the last five
of which carry an invalid email; the call behaves as on the first 5 rows alone
and a success reports 5 sampled rows. -/
theorem sampling_bound_witness :
    validate_file eW configAB "p" "default" "f.csv" ".csv" (["a", "b"] :: rows10) 5 =
      validate_file eW configAB "p" "default" "f.csv" ".csv" (["a", "b"] :: rows10.take 5) 5 ∧
    VResult.sample_validated_rows ⟨"OK", "p", "f.csv", "default", 5⟩ = 5 :=
  ⟨(sampling_bound eW configAB "p" "default" "f.csv" ".csv" [("default", cfgAB)] cfgAB
      ["a", "b"] rows10 5 (by decide) (by decide)).1,
   (sampling_bound eW configAB "p" "default" "f.csv" ".csv" [("default", cfgAB)] cfgAB
      ["a", "b"] rows10 5 (by decide) (by decide)).2 (by decide) _ (by decide)⟩

/-- C6: `_row_to_dict` normalisation.  In order: an empty-after-strip cell
becomes null and a non-empty cell is kept stripped; the dictionary covers
exactly the contract's columns (extra trailing cells dropped, missing cells
padded); within the row's width entry `i` pairs column `i` with its normalised
cell; beyond the row's width entry `i` pairs column `i` with null; both the
effective and the declared predicate of every rule accept null; hence a row of
only whitespace-only or missing cells produces no failing column under any
contract and any email oracle. -/
theorem row_normalization (e : String → Bool) :
    (∀ s : String, (strip s = "" → normalize_cell s = none) ∧
      (strip s ≠ "" → normalize_cell s = some (strip s))) ∧
    (∀ columns row : List String, (row_to_dict columns row).map Prod.fst = columns) ∧
    (∀ (columns row : List String) (i : Nat) (hci : i < columns.length)
      (hri : i < row.length),
      (row_to_dict columns row)[i]? = some (columns[i], normalize_cell row[i])) ∧
    (∀ (columns row : List String) (i : Nat) (hci : i < columns.length),
      row.length ≤ i → (row_to_dict columns row)[i]? = some (columns[i], none)) ∧
    (∀ rule : String, cellOkEffective e rule none = true ∧ cellOkDeclared e rule none = true) ∧
    (∀ (columns : List String) (types : List (String × Option String)) (row : List String),
      (∀ s ∈ row, strip s = "") → row_failures e columns types row = []) := by
  refine ⟨?_, ?_, ?_, ?_, ?_, ?_⟩
  · intro s
    constructor <;> intro h <;> simp [normalize_cell, h]
  · intro columns row
    simp only [row_to_dict]
    rw [List.map_fst_zip]
    simp only [List.length_append, List.length_map, List.length_take, List.length_replicate]
    omega
  · intro columns row i hci hri
    simp only [row_to_dict, List.zip_eq_zipWith, List.getElem?_zipWith]
    rw [List.getElem?_eq_getElem hci,
      List.getElem?_append_left (by simp only [List.length_map, List.length_take]; omega),
      List.getElem?_map, List.getElem?_take_of_lt hci, List.getElem?_eq_getElem hri]
    simp
  · intro columns row i hci hri
    simp only [row_to_dict, List.zip_eq_zipWith, List.getElem?_zipWith]
    rw [List.getElem?_eq_getElem hci,
      List.getElem?_append_right (by simp only [List.length_map, List.length_take]; omega)]
    simp only [List.getElem?_replicate, List.length_map, List.length_take]
    rw [if_pos (by omega)]
  · intro rule
    exact ⟨rfl, rfl⟩
  · intro columns types row hws
    simp only [row_failures, row_to_dict, List.filterMap_eq_nil_iff]
    intro cv hcv
    obtain ⟨c, v⟩ := cv
    have hv := (List.of_mem_zip hcv).2
    have hvnone : v = none := by
      rcases List.mem_append.mp hv with h | h
      · obtain ⟨s, hs, hval⟩ := List.mem_map.mp h
        have hstrip : strip s = "" := hws s (List.mem_of_mem_take hs)
        rw [← hval]
        simp [normalize_cell, hstrip]
      · exact List.eq_of_mem_replicate h
    subst hvnone
    simp [cellOkEffective]

/-- Witness for C6: a whitespace-only single-cell row under a two-column
contract (so one cell is missing) has no failing column even when every rule
could fail and the email oracle rejects everything. -/
theorem row_normalization_witness :
    normalize_cell "   " = none ∧
    row_failures (fun _ => false) ["a", "b"]
      [("a", some "email"), ("b", some "sha256")] ["   "] = [] :=
  ⟨((row_normalization (fun _ => false)).1 "   ").1 (by decide),
   (row_normalization (fun _ => false)).2.2.2.2.2 ["a", "b"]
     [("a", some "email"), ("b", some "sha256")] ["   "] (by decide)⟩

/-- C10: rule dispatch at line 136 of `_build_row_model`.  A column whose
`types` entry is absent, null or the empty string gets rule `string`, and the
looked-up identifier is lowercased before matching, so `Email`, `SHA256` and
`EMAIL_OR_SHA256` dispatch exactly like their lowercase forms. -/
theorem rule_dispatch (types : List (String × Option String)) (col : String) :
    (types.lookup col = none → rule_for types col = "string") ∧
    (types.lookup col = some none → rule_for types col = "string") ∧
    (types.lookup col = some (some "") → rule_for types col = "string") ∧
    (types.lookup col = some (some "Email") → rule_for types col = "email") ∧
    (types.lookup col = some (some "SHA256") → rule_for types col = "sha256") ∧
    (types.lookup col = some (some "EMAIL_OR_SHA256") →
      rule_for types col = "email_or_sha256") := by
  refine ⟨?_, ?_, ?_, ?_, ?_, ?_⟩ <;> intro h <;> simp only [rule_for, h] <;> decide

/-- Witness for C10 on concrete one-entry rule tables. -/
theorem rule_dispatch_witness :
    rule_for [] "c" = "string" ∧
    rule_for [("c", none)] "c" = "string" ∧
    rule_for [("c", some "")] "c" = "string" ∧
    rule_for [("c", some "Email")] "c" = "email" ∧
    rule_for [("c", some "SHA256")] "c" = "sha256" ∧
    rule_for [("c", some "EMAIL_OR_SHA256")] "c" = "email_or_sha256" :=
  ⟨(rule_dispatch [] "c").1 (by decide),
   (rule_dispatch [("c", none)] "c").2.1 (by decide),
   (rule_dispatch [("c", some "")] "c").2.2.1 (by decide),
   (rule_dispatch [("c", some "Email")] "c").2.2.2.1 (by decide),
   (rule_dispatch [("c", some "SHA256")] "c").2.2.2.2.1 (by decide),
   (rule_dispatch [("c", some "EMAIL_OR_SHA256")] "c").2.2.2.2.2 (by decide)⟩

end MajBdd
